import Mathlib

/-
Verification of the floating-IP reconciliation module
(plugins/modules/floating_ip.py).

The development embeds, in order:
  * a model of the CIDR parsing performed by Python's `ipaddress.ip_network`
    (the module calls it in `_resp2info`);
  * the data model: module parameters, raw API resources, the normalized
    info record;
  * the operations: `_resp2info`, `update_info`, `request_floating_ip`,
    `release_floating_ip`, `update_floating_ip`, the decision chain of
    `main`, and the check-mode exit;
  * the external API collaborator, modelled from the spec (the HTTP layer
    lives in `module_utils/api.py`, outside the sources at hand);
  * the theorems.
-/

namespace FloatingIp

/-! ## CIDR parsing, modelling Python `ipaddress.ip_network` -/

/-- Modelled from the spec: the module derives the identifier by
"extracting the network address portion from the resource's CIDR network
field", delegating to Python `ipaddress.ip_network`.  Split a character
list on a separator, keeping empty segments, as Python `str.split`. -/
def splitOn (sep : Char) : List Char → List (List Char)
  | [] => [[]]
  | c :: rest =>
    let r := splitOn sep rest
    if c = sep then [] :: r
    else
      match r with
      | [] => [[c]]
      | h :: t => (c :: h) :: t

/-- Decimal value of a digit string (callers check the digits first). -/
def decVal (cs : List Char) : Nat :=
  cs.foldl (fun a c => a * 10 + (c.toNat - 48)) 0

/-- A non-empty all-decimal-digits string, as Python `str.isdigit` on ASCII. -/
def isDecString (cs : List Char) : Bool :=
  !cs.isEmpty && cs.all Char.isDigit

/-- One dotted-quad octet: 1-3 digits, no leading zero, value at most 255
(`ipaddress._parse_octet`). -/
def parseOctet (cs : List Char) : Option Nat :=
  if cs.length = 0 || cs.length > 3 then none
  else if !cs.all Char.isDigit then none
  else if cs.length > 1 && cs.headD '0' = '0' then none
  else
    let n := decVal cs
    if n ≤ 255 then some n else none

/-- An IPv4 address as a 32-bit value: exactly four octets. -/
def parseV4Addr (cs : List Char) : Option Nat :=
  match (splitOn '.' cs).mapM parseOctet with
  | some [a, b, c, d] => some (((a * 256 + b) * 256 + c) * 256 + d)
  | _ => none

/-- Value of one hexadecimal digit, upper or lower case. -/
def hexDigitVal (c : Char) : Option Nat :=
  if c.isDigit then some (c.toNat - 48)
  else if 'a' ≤ c ∧ c ≤ 'f' then some (c.toNat - 87)
  else if 'A' ≤ c ∧ c ≤ 'F' then some (c.toNat - 55)
  else none

/-- One hextet: 1-4 hex digits, leading zeros allowed
(`ipaddress._parse_hextet`). -/
def parseHextet (cs : List Char) : Option Nat :=
  if cs.length = 0 || cs.length > 4 then none
  else (cs.mapM hexDigitVal).map (fun ds => ds.foldl (fun a d => a * 16 + d) 0)

/-- Lowercase hexadecimal rendering of a number, as Python `'%x'`. -/
def hexStr (n : Nat) : List Char :=
  Nat.toDigits 16 n

/-- Split an IPv6 literal on colons and expand an embedded dotted-quad
tail into two hextets, as `ipaddress._ip_int_from_string` does before the
double-colon analysis. -/
def v6Parts (cs : List Char) : Option (List (List Char)) :=
  let parts := splitOn ':' cs
  if parts.length < 3 then none
  else
    match parts.getLast? with
    | none => none
    | some last =>
      if last.contains '.' then
        match parseV4Addr last with
        | none => none
        | some v4 => some (parts.dropLast ++ [hexStr (v4 / 65536), hexStr (v4 % 65536)])
      else some parts

/-- Indices of empty segments in interior position: the candidates for the
double-colon gap. -/
def emptyMidIndices (parts : List (List Char)) : List Nat :=
  (List.range parts.length).filter
    (fun i => decide (0 < i) && decide (i + 1 < parts.length) && (parts.getD i []).isEmpty)

/-- Fold a list of hextet values into one number, high hextet first. -/
def hextetsVal (hs : List Nat) : Nat :=
  hs.foldl (fun a h => a * 65536 + h) 0

/-- An IPv6 address as a 128-bit value, following
`ipaddress._ip_int_from_string`: at most nine colon-separated parts, at
most one double colon, a leading or trailing lone colon only as half of a
double colon, exactly eight hextets once the gap is expanded. -/
def parseV6Addr (cs : List Char) : Option Nat :=
  match v6Parts cs with
  | none => none
  | some parts =>
    if parts.length > 9 then none
    else
      match emptyMidIndices parts with
      | [] =>
        if parts.length = 8 && !(parts.headD []).isEmpty && !(parts.getLastD []).isEmpty then
          (parts.mapM parseHextet).map hextetsVal
        else none
      | [skip] =>
        let hi0 := parts.take skip
        let lo0 := parts.drop (skip + 1)
        let hiOk : Option (List (List Char)) :=
          match hi0 with
          | [] => some []
          | h :: t => if h.isEmpty then (if t.isEmpty then some [] else none) else some hi0
        let loOk : Option (List (List Char)) :=
          match lo0.getLast? with
          | none => some []
          | some l => if l.isEmpty then (if lo0.length = 1 then some [] else none) else some lo0
        match hiOk, loOk with
        | some hi, some lo =>
          if hi.length + lo.length + 1 ≤ 8 then
            match hi.mapM parseHextet, lo.mapM parseHextet with
            | some hhs, some lhs =>
              some (hextetsVal hhs * 16 ^ (4 * (8 - hi.length)) + hextetsVal lhs)
            | _, _ => none
          else none
        | _, _ => none
      | _ => none

/-- Dotted-quad rendering of a 32-bit value. -/
def v4Str (n : Nat) : String :=
  toString (n / 16777216 % 256) ++ "." ++ toString (n / 65536 % 256) ++ "."
    ++ toString (n / 256 % 256) ++ "." ++ toString (n % 256)

/-- The eight hextet values of a 128-bit value, high first. -/
def v6Hextets (n : Nat) : List Nat :=
  (List.range 8).map (fun i => n / 16 ^ (4 * (7 - i)) % 65536)

/-- First longest run of zero hextets: (start, length), as the scan in
`ipaddress._compress_hextets`. -/
def bestZeroRun (hs : List Nat) : Nat × Nat :=
  let r := hs.foldl
    (fun acc x =>
      let idx := acc.1
      let cur := acc.2.1
      let best := acc.2.2
      if x = 0 then
        let cur2 := cur + 1
        let best2 := if cur2 > best.2 then (idx + 1 - cur2, cur2) else best
        (idx + 1, cur2, best2)
      else (idx + 1, 0, best))
    ((0 : Nat), (0 : Nat), ((0 : Nat), (0 : Nat)))
  r.2.2

/-- Compress the longest zero run (when of length at least two) to a
double colon, as `ipaddress._compress_hextets`. -/
def compressHextets (hs : List Nat) : List String :=
  let strs := hs.map (fun h => String.mk (hexStr h))
  let best := bestZeroRun hs
  if best.2 > 1 then
    let bs := best.1
    let be := best.1 + best.2
    let tail0 := strs.drop be ++ (if be = hs.length then [""] else [])
    let withGap := strs.take bs ++ [""] ++ tail0
    if bs = 0 then "" :: withGap else withGap
  else strs

/-- Canonical compressed rendering of a 128-bit value, as Python `str` on
an `IPv6Address`. -/
def v6Str (n : Nat) : String :=
  String.intercalate ":" (compressHextets (v6Hextets n))

/-- A parsed network: version, network address as a number, prefix length. -/
structure IPNet where
  version : Nat
  address : Nat
  prefixlen : Nat
deriving DecidableEq

/-- A prefix-length suffix: decimal digits (Python checks `str.isdigit`,
so leading zeros pass), value at most the address width. -/
def parsePrefixLen (cs : List Char) (maxLen : Nat) : Option Nat :=
  if isDecString cs then
    let n := decVal cs
    if n ≤ maxLen then some n else none
  else none

/-- Modelled from the spec: Python `ipaddress.ip_network` on a string, in
strict mode — IPv4 tried first, then IPv6; a missing suffix means a full
prefix; host bits set make the literal invalid.  The model covers
address and address-slash-prefixlen literals (the CIDR forms of the
spec); netmask-style suffixes are outside it. -/
def ip_network (s : String) : Option IPNet :=
  match splitOn '/' s.toList with
  | [a] =>
    match parseV4Addr a with
    | some v => some ⟨4, v, 32⟩
    | none => (parseV6Addr a).map (fun v => ⟨6, v, 128⟩)
  | [a, p] =>
    match parseV4Addr a, parsePrefixLen p 32 with
    | some v, some pl => if v % 2 ^ (32 - pl) = 0 then some ⟨4, v, pl⟩ else none
    | _, _ =>
      match parseV6Addr a, parsePrefixLen p 128 with
      | some v, some pl => if v % 2 ^ (128 - pl) = 0 then some ⟨6, v, pl⟩ else none
      | _, _ => none
  | _ => none

/-- `str(net.network_address)`: the network address portion of a parsed
CIDR, rendered canonically. -/
def networkAddrStr (n : IPNet) : String :=
  if n.version = 4 then v4Str n.address else v6Str n.address

example : (ip_network "192.0.2.123/32").map networkAddrStr = some "192.0.2.123" := by decide
example : (ip_network "2001:db8::/56").map networkAddrStr = some "2001:db8::" := by decide
example : (ip_network "2001:db8:0:0::").map networkAddrStr = some "2001:db8::" := by decide
example : ip_network "192.0.2.1/24" = none := by decide
example : ip_network "192.0.2.0/24" ≠ none := by decide
example : ip_network "not-a-cidr" = none := by decide
example : ip_network "192.0.2.123" ≠ none := by decide
example : (ip_network "::ffff:192.0.2.1").map networkAddrStr = some "::ffff:c000:201" := by decide

/-! ## Data model -/

/-- Lifecycle state of a floating IP, the `'present'` / `'absent'` strings
of the module. -/
inductive State
  | present
  | absent
deriving DecidableEq

/-- The module parameters (`argument_spec` of `main`).  `state` defaults
to present and `type` to `"regional"`, so both are always set; every
other option may be omitted (`None`). -/
structure Params where
  state : State
  ip : Option String
  ip_version : Option Nat
  server : Option String
  type : String
  region : Option String
  prefix_length : Option Nat
  reverse_ptr : Option String
  tags : Option (List (String × String))
deriving DecidableEq

/-- The nested server reference object inside a raw API resource; the
module only reads its `uuid` field. -/
structure ServerRef where
  uuid : String
deriving DecidableEq

/-- A raw floating-IP resource as returned by the API: the fields the
module reads or rewrites (`network`, `server`, `tags`); the remaining
read-only attributes are carried through unmodified and are elided. -/
structure RawResource where
  network : String
  server : Option ServerRef
  tags : List (String × String)
deriving DecidableEq

/-- The normalized info record (`self.info`).  A `none` field models a
key that is missing from the dict, matching how `main` reads
`'server' in floating_ip.info`. -/
structure Info where
  state : State
  ip : Option String
  server : Option String
  network : Option String
  tags : Option (List (String × String))
deriving DecidableEq

/-- The failures of the module: a missing required parameter
(`fail_on_missing_params` / the explicit `fail_json` in
`update_floating_ip`), a malformed network field (the `ValueError` out of
`ip_network`), and an opaque collaborator failure. -/
inductive Err
  | missingParam (name : String)
  | malformed (network : String)
  | serviceErr (msg : String)
deriving DecidableEq

/-- A value inside an outbound request payload (a Python dict value). -/
inductive Val
  | null
  | nat (n : Nat)
  | str (s : String)
  | tags (t : List (String × String))
deriving DecidableEq

/-- A network call issued against the collaborator, with its path and,
for a POST, its payload. -/
inductive ApiCall
  | get (path : String)
  | post (path : String) (data : List (String × Val))
  | delete (path : String)
deriving DecidableEq

/-- The reconciliation action selected by the dispatch chain of `main`. -/
inductive Action
  | create
  | delete
  | update
  | noop
deriving DecidableEq

/-- Python `'%s' % x` on an optional string: `None` renders as `"None"`. -/
def pyStr : Option String → String
  | Option.none => "None"
  | some s => s

/-- Python truthiness test `not params['server']`: missing or empty. -/
def serverFalsy : Option String → Bool
  | Option.none => true
  | some s => s == ""

def optNat : Option Nat → Val
  | Option.none => Val.null
  | some n => Val.nat n

def optStr : Option String → Val
  | Option.none => Val.null
  | some s => Val.str s

def optTags : Option (List (String × String)) → Val
  | Option.none => Val.null
  | some t => Val.tags t

/-! ## The external API collaborator, modelled from the spec

The HTTP layer (`AnsibleCloudscaleBase._get/_post/_delete` in
`module_utils/api.py`) is not among the sources at hand; the spec gives
its contract: fetch returns the stored resource or nothing, create stores
the requested parameters (the provider allocating the network), update
rewrites the mutable fields of the stored resource (an omitted tags field
leaves tags unchanged), delete removes the resource and returns no body.
The backing store holds at most the one resource of this invocation. -/

/-- Modelled from the spec: the one floating-IP resource held by the
backing store. -/
structure StoredRes where
  network : String
  server : Option String
  tags : List (String × String)
deriving DecidableEq

/-- Modelled from the spec: the raw API representation of a stored
resource — the server reference re-nested around the bare identifier. -/
def rawOf (r : StoredRes) : RawResource :=
  { network := r.network, server := r.server.map ServerRef.mk, tags := r.tags }

/-- Modelled from the spec: create stores the requested parameters; the
provider allocates the network `fresh`. -/
def apiCreate (p : Params) (fresh : String) : StoredRes :=
  { network := fresh, server := p.server, tags := p.tags.getD [] }

/-- Modelled from the spec: update rewrites the mutable fields; a tags
field that was omitted (null) leaves the stored tags unchanged. -/
def apiUpdate (r : StoredRes) (p : Params) : StoredRes :=
  { r with
    server := p.server,
    tags := match p.tags with
            | Option.none => r.tags
            | some t => t }

/-! ## The module operations -/

/-- `_resp2info`: mark the resource present, derive the bare address from
the CIDR network field, flatten the server reference to its UUID.  An
invalid network field is the uncaught `ValueError` out of `ip_network`. -/
def resp2info (resp : RawResource) : Except Err Info :=
  match ip_network resp.network with
  | none => Except.error (Err.malformed resp.network)
  | some net =>
    Except.ok
      { state := State.present,
        ip := some (networkAddrStr net),
        server := resp.server.map ServerRef.uuid,
        network := some resp.network,
        tags := some resp.tags }

/-- The synthesized absent record of `__init__`: `{'state': 'absent'}`,
no other key. -/
def initInfo : Info :=
  { state := State.absent, ip := none, server := none, network := none, tags := none }

/-- `update_info`: fetch by the supplied address; an empty response gives
`{'ip': params['ip'], 'state': 'absent'}`. -/
def update_info (ipStr : String) (store : Option StoredRes) :
    List ApiCall × Except Err Info :=
  ([ApiCall.get ("floating-ips/" ++ ipStr)],
   match store with
   | some r => resp2info (rawOf r)
   | none =>
     Except.ok
       { state := State.absent, ip := some ipStr, server := none,
         network := none, tags := none })

/-- `__init__`: start from the absent record and fetch only when the `ip`
parameter is truthy. -/
def init_info (p : Params) (store : Option StoredRes) :
    List ApiCall × Except Err Info :=
  match p.ip with
  | some s => if s = "" then ([], Except.ok initInfo) else update_info s store
  | none => ([], Except.ok initInfo)

/-- The creation payload of `request_floating_ip`, in source order. -/
def requestData (p : Params) : List (String × Val) :=
  [("ip_version", optNat p.ip_version),
   ("server", optStr p.server),
   ("prefix_length", optNat p.prefix_length),
   ("reverse_ptr", optStr p.reverse_ptr),
   ("type", Val.str p.type),
   ("region", optStr p.region),
   ("tags", optTags p.tags)]

/-- The update payload of `update_floating_ip`: only `server` and
`tags`. -/
def updateData (p : Params) : List (String × Val) :=
  [("server", optStr p.server), ("tags", optTags p.tags)]

/-- `request_floating_ip`: fail on a missing `ip_version` before any
call; otherwise POST the creation payload and remap the response. -/
def request_floating_ip (p : Params) (fresh : String) :
    List ApiCall × Except Err (Info × StoredRes) :=
  if p.ip_version.isNone then
    ([], Except.error (Err.missingParam "ip_version"))
  else
    let stored := apiCreate p fresh
    let tr := [ApiCall.post "floating-ips" (requestData p)]
    match resp2info (rawOf stored) with
    | Except.error e => (tr, Except.error e)
    | Except.ok i => (tr, Except.ok (i, stored))

/-- `release_floating_ip`: DELETE keyed by the `ip` parameter, then
synthesize `{'ip': self.info['ip'], 'state': 'absent'}` locally. -/
def release_floating_ip (p : Params) (current : Info) : List ApiCall × Info :=
  ([ApiCall.delete ("floating-ips/" ++ pyStr p.ip)],
   { state := State.absent, ip := current.ip, server := none,
     network := none, tags := none })

/-- `update_floating_ip`: fail on a falsy `server` before any call;
otherwise POST `{server, tags}` keyed by the `ip` parameter and remap the
response.  A POST against an empty store is the collaborator's own
not-found failure, propagated opaquely. -/
def update_floating_ip (p : Params) (store : Option StoredRes) :
    List ApiCall × Except Err (Info × Option StoredRes) :=
  if serverFalsy p.server then
    ([], Except.error (Err.missingParam "server"))
  else
    let tr := [ApiCall.post ("floating-ips/" ++ pyStr p.ip) (updateData p)]
    match store with
    | none => (tr, Except.error (Err.serviceErr "not found"))
    | some r =>
      let r2 := apiUpdate r p
      match resp2info (rawOf r2) with
      | Except.error e => (tr, Except.error e)
      | Except.ok i => (tr, Except.ok (i, some r2))

/-- The dispatch chain of `main`, conditions in source order, first match
wins. -/
def selectAction (cs ts : State) (csrv tsrv : Option String) : Action :=
  if cs = State.absent ∧ ts = State.present then Action.create
  else if cs = State.present ∧ ts = State.absent then Action.delete
  else if cs = State.present ∧ csrv ≠ tsrv then Action.update
  else Action.noop

/-- The action `main` selects for given parameters and current record. -/
def mainAction (p : Params) (current : Info) : Action :=
  selectAction current.state p.state current.server p.server

/-- The `changed` expression of the check-mode exit in `main`. -/
def checkChanged (p : Params) (current : Info) : Bool :=
  !(p.state == current.state)
    || (current.state == State.present && !(current.server == p.server))

/-- The check-mode branch of `main`: exit with the computed `changed` and
the current record, before the action dispatch — no network call. -/
def check_mode_run (p : Params) (current : Info) :
    List ApiCall × Bool × Info :=
  ([], checkChanged p current, current)

/-- The post-check-mode body of `main`: dispatch on the selected action,
run it against the store, report `changed` and the final record. -/
def reconcile (p : Params) (current : Info) (store : Option StoredRes)
    (fresh : String) :
    List ApiCall × Except Err (Bool × Info × Option StoredRes) :=
  match mainAction p current with
  | Action.create =>
    match request_floating_ip p fresh with
    | (tr, Except.error e) => (tr, Except.error e)
    | (tr, Except.ok (i, st)) => (tr, Except.ok (true, i, some st))
  | Action.delete =>
    let (tr, i) := release_floating_ip p current
    (tr, Except.ok (true, i, none))
  | Action.update =>
    match update_floating_ip p store with
    | (tr, Except.error e) => (tr, Except.error e)
    | (tr, Except.ok (i, st)) => (tr, Except.ok (true, i, st))
  | Action.noop => ([], Except.ok (false, current, store))

/-! ## Concrete sample data, used by witnesses -/

/-- Parameters with every optional field omitted and the defaults of the
argument spec applied. -/
def paramsBase : Params :=
  { state := State.present, ip := none, ip_version := none, server := none,
    type := "regional", region := none, prefix_length := none,
    reverse_ptr := none, tags := none }

/-- A present record for the address 192.0.2.123 assigned to srv-1, as
the mapper produces it. -/
def present123 : Info :=
  { state := State.present, ip := some "192.0.2.123", server := some "srv-1",
    network := some "192.0.2.123/32", tags := some [] }

/-- The matching stored resource. -/
def stored123 : StoredRes :=
  { network := "192.0.2.123/32", server := some "srv-1", tags := [] }

/-- The locally synthesized absent record after releasing 192.0.2.123. -/
def absent123 : Info :=
  { state := State.absent, ip := some "192.0.2.123", server := none,
    network := none, tags := none }

/-- Desired state: 192.0.2.123 absent. -/
def pDel : Params :=
  { paramsBase with state := State.absent, ip := some "192.0.2.123" }

/-- Desired state: 192.0.2.123 present on srv-2 (a reassignment). -/
def pUpd : Params :=
  { paramsBase with ip := some "192.0.2.123", server := some "srv-2" }

/-- A stored IPv6 network resource, unassigned. -/
def res6 : StoredRes :=
  { network := "2001:db8::/56", server := none, tags := [] }

/-- The record the mapper produces for `res6`: its identifier is the
canonical form of the network address. -/
def cur6 : Info :=
  { state := State.present, ip := some "2001:db8::", server := none,
    network := some "2001:db8::/56", tags := some [] }

/-- Desired state: absent, with the queried ip written non-canonically. -/
def p6 : Params :=
  { paramsBase with state := State.absent, ip := some "2001:db8:0:0::" }

/-! ## Inversion facts about the dispatch chain -/

theorem selectAction_create_inv (cs ts : State) (csrv tsrv : Option String)
    (h : selectAction cs ts csrv tsrv = Action.create) :
    cs = State.absent ∧ ts = State.present := by
  cases cs <;> cases ts <;> by_cases hsv : csrv = tsrv <;> simp_all [selectAction]

theorem selectAction_delete_inv (cs ts : State) (csrv tsrv : Option String)
    (h : selectAction cs ts csrv tsrv = Action.delete) :
    cs = State.present ∧ ts = State.absent := by
  cases cs <;> cases ts <;> by_cases hsv : csrv = tsrv <;> simp_all [selectAction]

theorem selectAction_update_inv (cs ts : State) (csrv tsrv : Option String)
    (h : selectAction cs ts csrv tsrv = Action.update) :
    cs = State.present ∧ ts = State.present ∧ csrv ≠ tsrv := by
  cases cs <;> cases ts <;> by_cases hsv : csrv = tsrv <;> simp_all [selectAction]

theorem selectAction_noop_inv (cs ts : State) (csrv tsrv : Option String)
    (h : selectAction cs ts csrv tsrv = Action.noop) :
    (cs = State.absent ∧ ts = State.absent) ∨
      (cs = State.present ∧ ts = State.present ∧ csrv = tsrv) := by
  cases cs <;> cases ts <;> by_cases hsv : csrv = tsrv <;> simp_all [selectAction]

/-- Unwrapping the modelled server reference gives back the identifier. -/
theorem serverRef_roundtrip (o : Option String) :
    (o.map ServerRef.mk).map ServerRef.uuid = o := by
  cases o <;> rfl

/-! ## Claim theorems -/

/-- C1: the reconciler selects exactly the action of the decision table,
first match wins — absent/absent and matching-server present/present give
no-op, absent/present gives create, present/absent gives delete, a server
mismatch gives update — and the desired tags never influence the selected
action. -/
theorem C1_decision_table (p : Params) (current : Info) :
    (current.state = State.absent → p.state = State.absent →
      mainAction p current = Action.noop) ∧
    (current.state = State.absent → p.state = State.present →
      mainAction p current = Action.create) ∧
    (current.state = State.present → p.state = State.absent →
      mainAction p current = Action.delete) ∧
    (current.state = State.present → p.state = State.present →
      current.server = p.server → mainAction p current = Action.noop) ∧
    (current.state = State.present → p.state = State.present →
      current.server ≠ p.server → mainAction p current = Action.update) ∧
    (∀ t, mainAction { p with tags := t } current = mainAction p current) := by
  refine ⟨?_, ?_, ?_, ?_, ?_, fun t => rfl⟩ <;>
    intro h1 h2 <;> try intro h3
  all_goals simp [mainAction, selectAction, h1, h2]
  · exact h3
  · exact h3

/-- Concrete instances of every row of the decision table, including a
tags-only change selecting no-op. -/
theorem C1_decision_table_witness :
    mainAction
        { state := State.absent, ip := none, ip_version := none, server := none,
          type := "regional", region := none, prefix_length := none,
          reverse_ptr := none, tags := none } initInfo = Action.noop ∧
    mainAction
        { state := State.present, ip := none, ip_version := some 4, server := none,
          type := "regional", region := none, prefix_length := none,
          reverse_ptr := none, tags := none } initInfo = Action.create ∧
    mainAction
        { state := State.absent, ip := some "192.0.2.123", ip_version := none,
          server := none, type := "regional", region := none, prefix_length := none,
          reverse_ptr := none, tags := none }
        { state := State.present, ip := some "192.0.2.123", server := some "srv-1",
          network := some "192.0.2.123/32", tags := some [] } = Action.delete ∧
    mainAction
        { state := State.present, ip := some "192.0.2.123", ip_version := none,
          server := some "srv-1", type := "regional", region := none,
          prefix_length := none, reverse_ptr := none,
          tags := some [("touched", "yes")] }
        { state := State.present, ip := some "192.0.2.123", server := some "srv-1",
          network := some "192.0.2.123/32", tags := some [] } = Action.noop ∧
    mainAction
        { state := State.present, ip := some "192.0.2.123", ip_version := none,
          server := some "srv-2", type := "regional", region := none,
          prefix_length := none, reverse_ptr := none, tags := none }
        { state := State.present, ip := some "192.0.2.123", server := some "srv-1",
          network := some "192.0.2.123/32", tags := some [] } = Action.update := by
  refine ⟨(C1_decision_table _ _).1 rfl rfl,
          (C1_decision_table _ _).2.1 rfl rfl,
          (C1_decision_table _ _).2.2.1 rfl rfl,
          (C1_decision_table _ _).2.2.2.1 rfl rfl rfl,
          (C1_decision_table _ _).2.2.2.2.1 rfl rfl (by decide)⟩

/-- C4: a create with no `ip_version`, and an update with no `server`,
fail with the missing-parameter error and an empty call trace — the
failure precedes any network call. -/
theorem C4_missing_param (p : Params) (current : Info) (store : Option StoredRes)
    (fresh : String) :
    (mainAction p current = Action.create → p.ip_version = none →
      reconcile p current store fresh
        = ([], Except.error (Err.missingParam "ip_version"))) ∧
    (mainAction p current = Action.update → p.server = none →
      reconcile p current store fresh
        = ([], Except.error (Err.missingParam "server"))) := by
  constructor
  · intro hact hip
    simp [reconcile, hact, request_floating_ip, hip]
  · intro hact hsrv
    simp [reconcile, hact, update_floating_ip, hsrv, serverFalsy]

/-- Scenario E and its update analogue: both missing-parameter failures
at concrete inputs, with empty call traces. -/
theorem C4_missing_param_witness :
    reconcile
        { state := State.present, ip := none, ip_version := none, server := none,
          type := "regional", region := none, prefix_length := none,
          reverse_ptr := none, tags := none } initInfo none "192.0.2.123/32"
      = ([], Except.error (Err.missingParam "ip_version")) ∧
    reconcile
        { state := State.present, ip := some "192.0.2.123", ip_version := none,
          server := none, type := "regional", region := none, prefix_length := none,
          reverse_ptr := none, tags := none }
        { state := State.present, ip := some "192.0.2.123", server := some "srv-1",
          network := some "192.0.2.123/32", tags := some [] }
        (some { network := "192.0.2.123/32", server := some "srv-1", tags := [] })
        "x"
      = ([], Except.error (Err.missingParam "server")) :=
  ⟨(C4_missing_param _ _ _ _).1 (by decide) rfl,
   (C4_missing_param _ _ _ _).2 (by decide) rfl⟩

/-- C10: with a present resource assigned to a server, desired state
present and no `server` parameter, the update path is selected and fails
with the missing-server error before any call, while check mode on the
same input reports `changed = true` and exits with the current record. -/
theorem C10_update_missing_server (p : Params) (current : Info)
    (store : Option StoredRes) (fresh : String) (s : String)
    (hcs : current.state = State.present) (hsrv : current.server = some s)
    (hts : p.state = State.present) (hns : p.server = none) :
    mainAction p current = Action.update ∧
    reconcile p current store fresh
      = ([], Except.error (Err.missingParam "server")) ∧
    check_mode_run p current = ([], true, current) := by
  have hact : mainAction p current = Action.update := by
    simp [mainAction, selectAction, hcs, hts, hsrv, hns]
  refine ⟨hact, (C4_missing_param p current store fresh).2 hact hns, ?_⟩
  simp [check_mode_run, checkChanged, hcs, hts, hsrv, hns]

/-- The missing-server failure and the successful check-mode exit at a
concrete input. -/
theorem C10_update_missing_server_witness :
    mainAction
        { state := State.present, ip := some "192.0.2.123", ip_version := none,
          server := none, type := "regional", region := none, prefix_length := none,
          reverse_ptr := none, tags := none }
        { state := State.present, ip := some "192.0.2.123", server := some "srv-1",
          network := some "192.0.2.123/32", tags := some [] } = Action.update ∧
    reconcile
        { state := State.present, ip := some "192.0.2.123", ip_version := none,
          server := none, type := "regional", region := none, prefix_length := none,
          reverse_ptr := none, tags := none }
        { state := State.present, ip := some "192.0.2.123", server := some "srv-1",
          network := some "192.0.2.123/32", tags := some [] }
        (some { network := "192.0.2.123/32", server := some "srv-1", tags := [] })
        "x"
      = ([], Except.error (Err.missingParam "server")) ∧
    check_mode_run
        { state := State.present, ip := some "192.0.2.123", ip_version := none,
          server := none, type := "regional", region := none, prefix_length := none,
          reverse_ptr := none, tags := none }
        { state := State.present, ip := some "192.0.2.123", server := some "srv-1",
          network := some "192.0.2.123/32", tags := some [] }
      = ([], true,
         { state := State.present, ip := some "192.0.2.123", server := some "srv-1",
           network := some "192.0.2.123/32", tags := some [] }) :=
  C10_update_missing_server _ _ _ "x" "srv-1" rfl rfl rfl rfl

/-- Fields of a successfully mapped record: present, the flattened server
reference, and the address extracted from the parsed network field. -/
theorem resp2info_ok_fields (resp : RawResource) (i : Info)
    (h : resp2info resp = Except.ok i) :
    i.state = State.present ∧ i.server = resp.server.map ServerRef.uuid ∧
    ∃ net, ip_network resp.network = some net ∧ i.ip = some (networkAddrStr net) := by
  unfold resp2info at h
  cases hnet : ip_network resp.network <;> rw [hnet] at h
  · simp at h
  · simp only [Except.ok.injEq] at h
    subst h
    exact ⟨rfl, rfl, _, rfl, rfl⟩

/-- A no-op run: empty trace, `changed = false`, everything unchanged. -/
theorem reconcile_noop (p : Params) (current : Info) (store : Option StoredRes)
    (fresh : String) (h : mainAction p current = Action.noop) :
    reconcile p current store fresh = ([], Except.ok (false, current, store)) := by
  unfold reconcile
  rw [h]

/-- `main` selects no-op when desired and observed state are both present
with a matching server. -/
theorem mainAction_noop_match (p : Params) (i : Info)
    (his : i.state = State.present) (hts : p.state = State.present)
    (hsrv : i.server = p.server) : mainAction p i = Action.noop := by
  simp [mainAction, selectAction, his, hts, hsrv]

/-- `main` selects no-op when desired and observed state are both absent. -/
theorem mainAction_noop_absent (p : Params) (i : Info)
    (his : i.state = State.absent) (hts : p.state = State.absent) :
    mainAction p i = Action.noop := by
  simp [mainAction, selectAction, his, hts]

/-- The check-mode `changed` expression agrees with "the selected action
is not no-op". -/
theorem checkChanged_eq (p : Params) (current : Info) :
    checkChanged p current = decide (mainAction p current ≠ Action.noop) := by
  cases hcs : current.state <;> cases hts : p.state <;>
    by_cases hsv : current.server = p.server <;>
      simp [checkChanged, mainAction, selectAction, hcs, hts, hsv]

/-- A successful real run reports `changed` exactly when the selected
action is not no-op. -/
theorem reconcile_ok_changed (p : Params) (current : Info) (store : Option StoredRes)
    (fresh : String) (tr : List ApiCall) (b : Bool) (i : Info) (st : Option StoredRes)
    (h : reconcile p current store fresh = (tr, Except.ok (b, i, st))) :
    b = decide (mainAction p current ≠ Action.noop) := by
  unfold reconcile at h
  cases hact : mainAction p current <;> rw [hact] at h
  case create =>
    rcases hr : request_floating_ip p fresh with ⟨tr2, res2⟩
    rw [hr] at h
    cases res2 with
    | error e => simp at h
    | ok v => simp at h; simp [h.2.1]
  case delete => simp at h; simp [h.2.1]
  case update =>
    rcases hr : update_floating_ip p store with ⟨tr2, res2⟩
    rw [hr] at h
    cases res2 with
    | error e => simp at h
    | ok v => simp at h; simp [h.2.1]
  case noop => simp at h; simp [h.2.1]

/-- C2 refuted at a concrete input: for a delete, real run and check mode
agree on `changed = true` and the check-mode run issues no API call, but
the records differ — the real run reports the synthesized absent record
while check mode exits with the pre-action present record. -/
theorem C2_counterexample :
    reconcile pDel present123 (some stored123) "10.0.0.0/24"
        = ([ApiCall.delete "floating-ips/192.0.2.123"],
           Except.ok (true, absent123, none)) ∧
    check_mode_run pDel present123 = ([], true, present123) ∧
    absent123 ≠ present123 := by
  refine ⟨rfl, rfl, by decide⟩

/-- C2 (amended): whenever the real run succeeds, check mode reports the
same `changed` boolean, issues no API call, and exits with the input
current record (which the counterexample shows can differ from the real
run's record). -/
theorem C2_dry_run_changed (p : Params) (current : Info) (store : Option StoredRes)
    (fresh : String) (tr : List ApiCall) (b : Bool) (i : Info) (st : Option StoredRes)
    (h : reconcile p current store fresh = (tr, Except.ok (b, i, st))) :
    check_mode_run p current = ([], b, current) := by
  have hb := reconcile_ok_changed p current store fresh tr b i st h
  have hc : checkChanged p current = b := by rw [checkChanged_eq, hb]
  simp [check_mode_run, hc]

/-- The amended C2 at the concrete delete input. -/
theorem C2_dry_run_changed_witness :
    check_mode_run pDel present123 = ([], true, present123) :=
  C2_dry_run_changed pDel present123 (some stored123) "10.0.0.0/24"
    [ApiCall.delete "floating-ips/192.0.2.123"] true absent123 none rfl

/-- C3: a second reconciliation with the same desired state, taking the
first run's record and backing store as input, is a no-op — it reports
`changed = false`, issues no call, and leaves record and store as they
are. -/
theorem C3_idempotent (p : Params) (current : Info) (store : Option StoredRes)
    (fresh fresh2 : String) (tr : List ApiCall) (b : Bool) (i : Info)
    (st : Option StoredRes)
    (h : reconcile p current store fresh = (tr, Except.ok (b, i, st))) :
    reconcile p i st fresh2 = ([], Except.ok (false, i, st)) := by
  have hnoop : mainAction p i = Action.noop := by
    unfold reconcile at h
    cases hact : mainAction p current <;> rw [hact] at h
    case create =>
      obtain ⟨hcs, hts⟩ := selectAction_create_inv _ _ _ _ hact
      unfold request_floating_ip at h
      cases hip : p.ip_version <;> rw [hip] at h
      · simp at h
      · simp only [Option.isNone_some, Bool.false_eq_true, if_false] at h
        cases hresp : resp2info (rawOf (apiCreate p fresh)) <;> rw [hresp] at h
        · simp at h
        · simp only [Prod.mk.injEq, Except.ok.injEq] at h
          obtain ⟨-, -, hi, -⟩ := h
          subst hi
          obtain ⟨hstate, hserver, -⟩ := resp2info_ok_fields _ _ hresp
          refine mainAction_noop_match p _ hstate hts ?_
          rw [hserver]
          simpa [rawOf, apiCreate] using serverRef_roundtrip p.server
    case delete =>
      obtain ⟨hcs, hts⟩ := selectAction_delete_inv _ _ _ _ hact
      simp only [release_floating_ip, Prod.mk.injEq, Except.ok.injEq] at h
      obtain ⟨-, -, hi, -⟩ := h
      subst hi
      exact mainAction_noop_absent p _ rfl hts
    case update =>
      obtain ⟨hcs, hts, hsv⟩ := selectAction_update_inv _ _ _ _ hact
      unfold update_floating_ip at h
      cases hfal : serverFalsy p.server <;> rw [hfal] at h
      · cases store with
        | none => simp at h
        | some r =>
          simp only [] at h
          cases hresp : resp2info (rawOf (apiUpdate r p)) <;> rw [hresp] at h
          · simp at h
          · simp at h
            obtain ⟨-, -, hi, -⟩ := h
            subst hi
            obtain ⟨hstate, hserver, -⟩ := resp2info_ok_fields _ _ hresp
            refine mainAction_noop_match p _ hstate hts ?_
            rw [hserver]
            simpa [rawOf, apiUpdate] using serverRef_roundtrip p.server
      · simp at h
    case noop =>
      simp only [Prod.mk.injEq, Except.ok.injEq] at h
      obtain ⟨-, -, hi, -⟩ := h
      subst hi
      exact hact
  haveI := hnoop
  exact reconcile_noop p i st fresh2 hnoop

/-- The idempotence theorem at a concrete creation: requesting the same
floating IP again right after it was created is a no-op. -/
theorem C3_idempotent_witness :
    reconcile { paramsBase with ip_version := some 4, server := some "srv-1" }
        { state := State.present, ip := some "192.0.2.123", server := some "srv-1",
          network := some "192.0.2.123/32", tags := some [] }
        (some { network := "192.0.2.123/32", server := some "srv-1", tags := [] })
        "198.51.100.7/32"
      = ([], Except.ok (false,
          { state := State.present, ip := some "192.0.2.123", server := some "srv-1",
            network := some "192.0.2.123/32", tags := some [] },
          some { network := "192.0.2.123/32", server := some "srv-1", tags := [] })) :=
  C3_idempotent { paramsBase with ip_version := some 4, server := some "srv-1" }
    initInfo none "192.0.2.123/32" "198.51.100.7/32"
    [ApiCall.post "floating-ips"
      (requestData { paramsBase with ip_version := some 4, server := some "srv-1" })]
    true
    { state := State.present, ip := some "192.0.2.123", server := some "srv-1",
      network := some "192.0.2.123/32", tags := some [] }
    (some { network := "192.0.2.123/32", server := some "srv-1", tags := [] })
    rfl

/-- C5: the update payload contains exactly the fields server and tags —
never `ip_version`, `type`, `region` or `prefix_length` — and the only
call an update run issues is the one POST carrying that payload. -/
theorem C5_update_payload (p : Params) (current : Info) (store : Option StoredRes)
    (fresh : String)
    (hact : mainAction p current = Action.update)
    (hs : serverFalsy p.server = false) :
    (reconcile p current store fresh).1
        = [ApiCall.post ("floating-ips/" ++ pyStr p.ip) (updateData p)] ∧
    (updateData p).map Prod.fst = ["server", "tags"] ∧
    (∀ v, ("ip_version", v) ∉ updateData p) ∧
    (∀ v, ("type", v) ∉ updateData p) ∧
    (∀ v, ("region", v) ∉ updateData p) ∧
    (∀ v, ("prefix_length", v) ∉ updateData p) := by
  refine ⟨?_, rfl, ?_, ?_, ?_, ?_⟩
  · unfold reconcile
    rw [hact]
    unfold update_floating_ip
    rw [hs]
    simp only [Bool.false_eq_true, if_false]
    cases store with
    | none => rfl
    | some r =>
      simp only []
      cases resp2info (rawOf (apiUpdate r p)) <;> rfl
  all_goals intro v
  all_goals simp [updateData, optStr, optTags]

/-- The update payload at a concrete reassignment. -/
theorem C5_update_payload_witness :
    (reconcile pUpd present123 (some stored123) "198.51.100.7/32").1
        = [ApiCall.post ("floating-ips/" ++ pyStr pUpd.ip) (updateData pUpd)] ∧
    (updateData pUpd).map Prod.fst = ["server", "tags"] ∧
    ("ip_version", Val.nat 4) ∉ updateData pUpd ∧
    ("type", Val.str "regional") ∉ updateData pUpd ∧
    ("region", Val.str "lpg") ∉ updateData pUpd ∧
    ("prefix_length", Val.nat 56) ∉ updateData pUpd := by
  obtain ⟨h1, h2, h3, h4, h5, h6⟩ :=
    C5_update_payload pUpd present123 (some stored123) "198.51.100.7/32"
      (by decide) (by decide)
  exact ⟨h1, h2, h3 _, h4 _, h5 _, h6 _⟩

/-- C6 refuted at a concrete input: the current record for an IPv6
network queried through the non-canonical literal `2001:db8:0:0::`
carries the canonical identifier `2001:db8::`, yet the delete request is
keyed by the queried literal, not by that identifier. -/
theorem C6_counterexample :
    (update_info "2001:db8:0:0::" (some res6)).2 = Except.ok cur6 ∧
    mainAction p6 cur6 = Action.delete ∧
    (reconcile p6 cur6 (some res6) "x").1
        = [ApiCall.delete "floating-ips/2001:db8:0:0::"] ∧
    "floating-ips/2001:db8:0:0::" ≠ "floating-ips/" ++ pyStr cur6.ip := by
  exact ⟨rfl, rfl, rfl, by decide⟩

/-- C6 (amended): the delete request is keyed by the supplied ip
parameter — which equals the current record's identifier exactly when
the queried value is already the canonical address — and on success the
result is synthesized locally as the absent record carrying the current
record's identifier, with `changed = true`. -/
theorem C6_delete (p : Params) (current : Info) (store : Option StoredRes)
    (fresh : String) (hact : mainAction p current = Action.delete) :
    reconcile p current store fresh
      = ([ApiCall.delete ("floating-ips/" ++ pyStr p.ip)],
         Except.ok (true,
           { state := State.absent, ip := current.ip, server := none,
             network := none, tags := none }, none)) := by
  unfold reconcile
  rw [hact]
  rfl

/-- Scenario D: releasing 192.0.2.123 issues the one delete call and
reports the synthesized absent record with `changed = true`. -/
theorem C6_delete_witness :
    reconcile pDel present123 (some stored123) "x"
      = ([ApiCall.delete ("floating-ips/" ++ pyStr pDel.ip)],
         Except.ok (true, absent123, none)) :=
  C6_delete pDel present123 (some stored123) "x" (by decide)

/-- C7: mapping a non-empty raw resource yields a present record whose
identifier is the network-address portion of the CIDR network field and
whose server is the bare identifier of the nested reference when one is
attached, unset otherwise. -/
theorem C7_mapper (resp : RawResource) (net : IPNet)
    (h : ip_network resp.network = some net) :
    resp2info resp = Except.ok
      { state := State.present, ip := some (networkAddrStr net),
        server := resp.server.map ServerRef.uuid,
        network := some resp.network, tags := some resp.tags } := by
  unfold resp2info
  rw [h]

/-- The mapper on the spec's concrete examples: `192.0.2.123/32` maps to
identifier `192.0.2.123` with the attached server flattened to its bare
identifier, and `2001:db8::/56` maps to `2001:db8::` with the server
unset. -/
theorem C7_mapper_witness :
    resp2info { network := "192.0.2.123/32", server := some ⟨"srv-1"⟩, tags := [] }
      = Except.ok
          { state := State.present, ip := some "192.0.2.123",
            server := some "srv-1", network := some "192.0.2.123/32",
            tags := some [] } ∧
    resp2info { network := "2001:db8::/56", server := none, tags := [] }
      = Except.ok
          { state := State.present, ip := some "2001:db8::", server := none,
            network := some "2001:db8::/56", tags := some [] } :=
  ⟨C7_mapper _ ⟨4, 3221226107, 32⟩ (by decide),
   C7_mapper _ ⟨6, 0x20010db8000000000000000000000000, 56⟩ (by decide)⟩

/-- C8: across the update and no-op paths the output record keeps the
identifier of the input current record, the current record reflecting
the stored resource the run acts on. -/
theorem C8_identity (p : Params) (current : Info) (r : StoredRes) (fresh : String)
    (tr : List ApiCall) (b : Bool) (i : Info) (st : Option StoredRes)
    (hcur : current.ip = (ip_network r.network).map networkAddrStr)
    (hact : mainAction p current = Action.update ∨ mainAction p current = Action.noop)
    (h : reconcile p current (some r) fresh = (tr, Except.ok (b, i, st))) :
    i.ip = current.ip := by
  cases hact with
  | inr hnoop =>
    rw [reconcile_noop p current (some r) fresh hnoop] at h
    simp at h
    obtain ⟨-, -, hi, -⟩ := h
    subst hi
    rfl
  | inl hupd =>
    unfold reconcile at h
    rw [hupd] at h
    unfold update_floating_ip at h
    cases hfal : serverFalsy p.server <;> rw [hfal] at h
    · simp only [] at h
      cases hresp : resp2info (rawOf (apiUpdate r p)) <;> rw [hresp] at h
      · simp at h
      · simp at h
        obtain ⟨-, -, hi, -⟩ := h
        subst hi
        obtain ⟨-, -, net, hnet, hip⟩ := resp2info_ok_fields _ _ hresp
        rw [hip, hcur]
        have hnw : (rawOf (apiUpdate r p)).network = r.network := rfl
        rw [hnw] at hnet
        rw [hnet]
        rfl
    · simp at h

/-- Identity preservation at a concrete reassignment of 192.0.2.123 from
srv-1 to srv-2. -/
theorem C8_identity_witness :
    (({ state := State.present, ip := some "192.0.2.123", server := some "srv-2",
        network := some "192.0.2.123/32", tags := some [] } : Info)).ip
      = present123.ip :=
  C8_identity pUpd present123 stored123 "x"
    [ApiCall.post ("floating-ips/" ++ pyStr pUpd.ip) (updateData pUpd)] true
    { state := State.present, ip := some "192.0.2.123", server := some "srv-2",
      network := some "192.0.2.123/32", tags := some [] }
    (some { network := "192.0.2.123/32", server := some "srv-2", tags := [] })
    (by decide) (Or.inl (by decide)) rfl

/-- C9: the mapper fails — with the malformed-resource error naming the
offending network field — exactly when that field is not a valid CIDR
literal; the failure is the final outcome of the map, nothing retries
it. -/
theorem C9_malformed (resp : RawResource) :
    resp2info resp = Except.error (Err.malformed resp.network)
      ↔ ip_network resp.network = none := by
  unfold resp2info
  cases h : ip_network resp.network <;> simp

end FloatingIp
